import Mathlib

/-!
# Verification of the Payment core of `sales-ddd-hexagonal`

Shallow embedding of the Payment entity, its state machine, the guard
functions and the `DomainError` infrastructure of the repository
`marcosvieirajr/sales-ddd-hexagonal`, together with proofs of the
specified properties.

Modelling conventions:
* Go `error` values are modelled by the inductive `GoError`; a `nil`
  error is `Option.none` at the use sites (`Option GoError`).
* `float64` amounts are modelled as rationals (`ℚ`): the core never
  performs arithmetic on amounts, it only compares them with zero and
  stores them, so the embedding is faithful on every representable value.
* `time.Time` is an abstract clock instant (`Time := Nat`); each
  operation that reads the system clock takes the current instant as an
  explicit parameter.  The core never inspects time values.
* Methods that mutate the receiver (`*Payment`) become functions
  returning the updated `Payment` together with the returned error.
-/

namespace SalesDDD

/-- Abstract clock instant standing for Go `time.Time`.  The zero value of
`time.Time` is modelled by `0`. -/
abbrev Time := Nat

/-! ## Go errors (`shared/errs` / `kernel/errs`)

`GoError` is the universe of Go `error` values that the Payment core can
produce or wrap:
* `domain code message cause` is a `*DomainError` value
  (fields `Code`, `Message`, `Err`; `cause = none` is `Err == nil`);
* `plain id` is any other error value (e.g. from `fmt.Errorf`), identified
  by its allocation identity, since plain errors compare by pointer;
* `join errs` is the `*joinError` produced by `errors.Join` on the listed
  non-nil errors. -/
inductive GoError where
  | domain (code : String) (message : String) (cause : Option GoError)
  | plain (id : Nat)
  | join (errs : List GoError)
  deriving Repr

/-- `errs.New(code, message)`: a sentinel `*DomainError` with no wrapped cause. -/
def errsNew (code : String) (message : String) : GoError :=
  .domain code message none

/-- `(*DomainError).Wrap(err)`: shallow copy of the receiver with `Err` set to
the cause.  Defined only on `domain` values, as in the source it is a method
on `*DomainError`; on other values it is never invoked (identity here). -/
def DomainError.Wrap (e : GoError) (cause : GoError) : GoError :=
  match e with
  | .domain c m _ => .domain c m (some cause)
  | e => e

mutual

/-- `errors.As(target, &domErr)` specialised to `**DomainError`: pre-order
traversal of the error tree, returning the first `*DomainError` found. -/
def errorsAsDomain : GoError → Option GoError
  | .domain c m cause => some (.domain c m cause)
  | .plain _ => none
  | .join es => errorsAsDomainList es

/-- Traversal of `errors.As` through the children of a `*joinError`
(`Unwrap() []error`), in order. -/
def errorsAsDomainList : List GoError → Option GoError
  | [] => none
  | e :: rest =>
    match errorsAsDomain e with
    | some d => some d
    | none => errorsAsDomainList rest

end

/-- `(*DomainError).Is(target)`: find the first `*DomainError` in `target`
via `errors.As` and compare codes.  Comparison is by `Code` only, never by
message or identity.  Only invoked on `domain` receivers in the source. -/
def DomainError.Is (e : GoError) (target : GoError) : Bool :=
  match e with
  | .domain c _ _ =>
    match errorsAsDomain target with
    | some (.domain c2 _ _) => c == c2
    | _ => false
  | _ => false

mutual

/-- `errors.Is(err, target)`: walk the error tree of `err`; a `*DomainError`
node matches through its `Is` method (code comparison); a plain error
matches by identity; a `*joinError` recurses into its children. -/
def errorsIs : GoError → GoError → Bool
  | .domain c m cause, target =>
    DomainError.Is (.domain c m cause) target ||
      (match cause with
       | some u => errorsIs u target
       | none => false)
  | .plain i, target =>
    (match target with
     | .plain j => i == j
     | _ => false)
  | .join es, target => errorsIsList es target

/-- `errors.Is` recursion through the children of a `*joinError`. -/
def errorsIsList : List GoError → GoError → Bool
  | [], _ => false
  | e :: rest, target => errorsIs e target || errorsIsList rest target

end

/-- `errors.Join(errs...)`: `nil` when every argument is `nil`, otherwise a
`*joinError` holding the non-nil arguments in order. -/
def errorsJoin (es : List (Option GoError)) : Option GoError :=
  match es.filterMap id with
  | [] => none
  | e :: rest => some (.join (e :: rest))

/-! ## Guard functions (`kernel/guard`, source `src/domain/utils.go`) -/

/-- `unicode.IsSpace` on the code points Go recognises as white space. -/
def goIsSpace (c : Char) : Bool :=
  let n := c.toNat
  n == 9 || n == 10 || n == 11 || n == 12 || n == 13 || n == 32 ||
  n == 0x85 || n == 0xA0 || n == 0x1680 ||
  (0x2000 ≤ n && n ≤ 0x200A) ||
  n == 0x2028 || n == 0x2029 || n == 0x202F || n == 0x205F || n == 0x3000

/-- `strings.TrimSpace`: drop leading and trailing white space. -/
def goTrimSpace (s : String) : String :=
  String.mk (((s.data.dropWhile goIsSpace).reverse.dropWhile goIsSpace).reverse)

/-- `CheckNotNullOrWhiteSpace(value, err)`: `err` when the trimmed string is
empty, `nil` otherwise. -/
def CheckNotNullOrWhiteSpace (value : String) (err : GoError) : Option GoError :=
  if goTrimSpace value = "" then some err else none

/-- `CheckNotZeroOrNegative(value, err)`: `err` when `value <= 0`. -/
def CheckNotZeroOrNegative (value : ℚ) (err : GoError) : Option GoError :=
  if value ≤ 0 then some err else none

/-- `CheckNotNil(value, err)`: `err` when the value is nil (including a typed
nil pointer inside an interface, which `Option.none` models directly). -/
def CheckNotNil {α : Type} (value : Option α) (err : GoError) : Option GoError :=
  if value.isNone then some err else none

/-- `CheckNil(value, err)`: `err` when the value is non-nil. -/
def CheckNil {α : Type} (value : Option α) (err : GoError) : Option GoError :=
  if value.isSome then some err else none

/-- `kernel.GenerateID()`: the stub implementation returns a fixed string. -/
def GenerateID : String := "12345678-1234-5678-1234-567812345678"

/-! ## Payment status and method (`payment_status.go`, `payment_method.go`) -/

/-- `Status` is an int-wrapper value type for the payment lifecycle state. -/
structure Status where
  value : Int
  deriving DecidableEq, Repr

def StatusPending : Status := ⟨1⟩
def StatusAuthorized : Status := ⟨2⟩
def StatusRefused : Status := ⟨3⟩
def StatusRefunded : Status := ⟨4⟩
def StatusCancelled : Status := ⟨5⟩

/-- `(Status).Equals(other)`: comparison of the wrapped int values. -/
def Status.Equals (s : Status) (other : Status) : Bool :=
  s.value == other.value

/-- `Method` is an int-wrapper value type for the payment method. -/
structure Method where
  value : Int
  deriving DecidableEq, Repr

def MethodCreditCard : Method := ⟨1⟩
def MethodDebitCard : Method := ⟨2⟩
def MethodCash : Method := ⟨3⟩
def MethodPix : Method := ⟨4⟩
def MethodBankTransfer : Method := ⟨5⟩
def MethodBancSlip : Method := ⟨6⟩

/-- `(Method).Equals(other)`: comparison of the wrapped int values. -/
def Method.Equals (m : Method) (other : Method) : Bool :=
  m.value == other.value

/-! ## Domain events (`payment_approved_event.go`, `payment_refused_event.go`) -/

/-- Base `Event` struct carrying the occurrence timestamp. -/
structure Event where
  DateOccurred : Time
  deriving DecidableEq, Repr

/-- `(Event).OccurredAt()`. -/
def Event.OccurredAt (e : Event) : Time := e.DateOccurred

/-- `ApprovedEvent`: the event when a payment is approved. -/
structure ApprovedEvent where
  toEvent : Event
  PaymentID : String
  OrderID : String
  Amount : ℚ
  TransactionCode : Option String
  deriving DecidableEq, Repr

/-- `RefusedEvent`: the event when a payment is refused. -/
structure RefusedEvent where
  toEvent : Event
  PaymentID : String
  OrderID : String
  Amount : ℚ
  TransactionCode : Option String
  deriving DecidableEq, Repr

/-- Go zero value `ApprovedEvent{}`: all fields at their zero values. -/
def ApprovedEvent.goZero : ApprovedEvent :=
  { toEvent := { DateOccurred := 0 }, PaymentID := "", OrderID := "",
    Amount := 0, TransactionCode := none }

/-- Go zero value `RefusedEvent{}`: all fields at their zero values. -/
def RefusedEvent.goZero : RefusedEvent :=
  { toEvent := { DateOccurred := 0 }, PaymentID := "", OrderID := "",
    Amount := 0, TransactionCode := none }

/-- The `DomainEvent` interface, restricted to its two implementations. -/
inductive DomainEvent where
  | approved (e : ApprovedEvent)
  | refused (e : RefusedEvent)
  deriving DecidableEq, Repr

/-! ## Payment entity (`src/order/domain/payment/payment.go`) -/

def ErrInvalidOrderID : GoError :=
  errsNew "PAYMENT.INVALID_ORDER_ID" "order ID cannot be null or whitespace"
def ErrInvalidPaymentAmount : GoError :=
  errsNew "PAYMENT.INVALID_AMOUNT" "payment amount must be greater than zero"
def ErrInvalidTransactionCode : GoError :=
  errsNew "PAYMENT.INVALID_TRANSACTION_CODE" "transaction code cannot be null or whitespace"
def ErrTransactionCodeAlreadyDefined : GoError :=
  errsNew "PAYMENT.TRANSACTION_CODE_ALREADY_DEFINED" "transaction code has already been defined"
def ErrCannotDefineTransactionCodeAfterCompletion : GoError :=
  errsNew "PAYMENT.TRANSACTION_CODE_AFTER_COMPLETION"
    "transaction code cannot be defined after payment has been confirmed or refused"
def ErrPaymentNotPending : GoError :=
  errsNew "PAYMENT.NOT_PENDING" "payment is not in pending status"
def ErrTransactionCodeNotDefined : GoError :=
  errsNew "PAYMENT.TRANSACTION_CODE_NOT_DEFINED" "transaction code has not been defined yet"

/-- The `Payment` entity.  Pointer-valued optional fields (`*time.Time`,
`*string`) are `Option`s. -/
structure Payment where
  ID : String
  OrderID : String
  Amount : ℚ
  Method : Method
  Status : Status
  PaidAt : Option Time
  UpdatedAt : Option Time
  TransactionCode : Option String
  deriving DecidableEq, Repr

/-- `(*Payment).checkStatusEqual(other, err)`: `err` when the current status
differs from `other`. -/
def checkStatusEqual (p : Payment) (other : Status) (err : GoError) : Option GoError :=
  if !(p.Status.Equals other) then some err else none

/-- `(*Payment).updateTimestamp()`: refresh `UpdatedAt` with the clock value. -/
def updateTimestamp (p : Payment) (now : Time) : Payment :=
  { p with UpdatedAt := some now }

/-- `(*Payment).AddDomainEvent(event)`: a no-op in the source
(`// TODO: implement and test...`); the event argument is discarded. -/
def AddDomainEvent (p : Payment) (_event : DomainEvent) : Payment := p

/-- `NewPayment(orderID, amount, method)`: validates the order ID and the
amount (failures joined), then returns the fresh pending payment. -/
def NewPayment (orderID : String) (amount : ℚ) (method : Method) :
    Except GoError Payment :=
  match errorsJoin
      [CheckNotNullOrWhiteSpace orderID ErrInvalidOrderID,
       CheckNotZeroOrNegative amount ErrInvalidPaymentAmount] with
  | some e => .error e
  | none =>
    .ok { ID := GenerateID, OrderID := orderID, Method := method,
          Status := StatusPending, Amount := amount,
          PaidAt := none, UpdatedAt := none, TransactionCode := none }

/-- The event record constructed by `ConfirmPayment` on success: the literal
`ApprovedEvent{}` on line 78 of `payment.go` — the zero value, carrying none
of the payment's data (the source comment reads `// TODO: add more details
to the event (e.g. order ID, amount, etc.)`). -/
def confirmPaymentApprovedEvent (_p : Payment) : ApprovedEvent :=
  ApprovedEvent.goZero

/-- The event record constructed by `RefusePayment` on success: the literal
`RefusedEvent{}` on line 98 of `payment.go` — the zero value. -/
def refusePaymentRefusedEvent (_p : Payment) : RefusedEvent :=
  RefusedEvent.goZero

/-- `(*Payment).ConfirmPayment()`: guarded transition Pending → Authorized.
Returns the updated payment and the returned error (`none` = `nil`). -/
def ConfirmPayment (p : Payment) (now : Time) : Payment × Option GoError :=
  match errorsJoin
      [checkStatusEqual p StatusPending ErrPaymentNotPending,
       CheckNotNil p.TransactionCode ErrTransactionCodeNotDefined] with
  | some e => (p, some e)
  | none =>
    let p1 : Payment := { p with PaidAt := some now, Status := StatusAuthorized }
    let p2 := updateTimestamp p1 now
    let p3 := AddDomainEvent p2 (.approved (confirmPaymentApprovedEvent p2))
    (p3, none)

/-- `(*Payment).RefusePayment()`: guarded transition Pending → Refused. -/
def RefusePayment (p : Payment) (now : Time) : Payment × Option GoError :=
  match errorsJoin
      [checkStatusEqual p StatusPending ErrPaymentNotPending,
       CheckNotNil p.TransactionCode ErrTransactionCodeNotDefined] with
  | some e => (p, some e)
  | none =>
    let p1 : Payment := { p with Status := StatusRefused }
    let p2 := updateTimestamp p1 now
    let p3 := AddDomainEvent p2 (.refused (refusePaymentRefusedEvent p2))
    (p3, none)

/-- `(*Payment).DefineTransactionCode(code)`: assigns the gateway transaction
code after the three joined guard checks. -/
def DefineTransactionCode (p : Payment) (code : String) (now : Time) :
    Payment × Option GoError :=
  match errorsJoin
      [checkStatusEqual p StatusPending ErrCannotDefineTransactionCodeAfterCompletion,
       CheckNotNullOrWhiteSpace code ErrInvalidTransactionCode,
       CheckNil p.TransactionCode ErrTransactionCodeAlreadyDefined] with
  | some e => (p, some e)
  | none =>
    let p1 : Payment := { p with TransactionCode := some code }
    (updateTimestamp p1 now, none)

/-! ## Reachability: payment states produced by the public operations -/

/-- One mutation step on a payment: any of the three operations, at any clock
instant, with any argument, whether it succeeds or fails. -/
inductive Step : Payment → Payment → Prop where
  | defineCode (p : Payment) (code : String) (now : Time) :
      Step p (DefineTransactionCode p code now).1
  | confirm (p : Payment) (now : Time) : Step p (ConfirmPayment p now).1
  | refuse (p : Payment) (now : Time) : Step p (RefusePayment p now).1

/-- Payment states reachable from a successful `NewPayment` by any sequence
of operation calls. -/
inductive Reachable : Payment → Prop where
  | init (orderID : String) (amount : ℚ) (method : Method) (p : Payment) :
      NewPayment orderID amount method = .ok p → Reachable p
  | step (p q : Payment) : Reachable p → Step p q → Reachable q

/-! ## Sample states used by concrete runs -/

/-- The payment produced by `NewPayment("order-123", 100.0, MethodCreditCard)`. -/
def samplePending : Payment :=
  { ID := GenerateID, OrderID := "order-123", Amount := 100, Method := MethodCreditCard,
    Status := StatusPending, PaidAt := none, UpdatedAt := none, TransactionCode := none }

/-- `samplePending` after `DefineTransactionCode("TXN-123")` at instant 1. -/
def sampleWithCode : Payment :=
  { samplePending with TransactionCode := some "TXN-123", UpdatedAt := some 1 }

/-- `sampleWithCode` after `ConfirmPayment()` at instant 2. -/
def sampleAuthorized : Payment :=
  { sampleWithCode with PaidAt := some 2, Status := StatusAuthorized, UpdatedAt := some 2 }

/-! ## Helper lemmas: guards and `errors.Join` -/

theorem Status.Equals_iff {s t : Status} : s.Equals t = true ↔ s = t := by
  cases s
  cases t
  simp [Status.Equals]

theorem checkStatusEqual_eq_none {p : Payment} {s : Status} {e : GoError}
    (h : p.Status = s) : checkStatusEqual p s e = none := by
  simp [checkStatusEqual, h, Status.Equals]

theorem checkStatusEqual_eq_some {p : Payment} {s : Status} {e : GoError}
    (h : p.Status ≠ s) : checkStatusEqual p s e = some e := by
  have hb : p.Status.Equals s = false := by
    cases hb : p.Status.Equals s with
    | false => rfl
    | true => exact absurd (Status.Equals_iff.mp hb) h
  simp [checkStatusEqual, hb]

theorem checkStatusEqual_none_iff {p : Payment} {s : Status} {e : GoError} :
    checkStatusEqual p s e = none ↔ p.Status = s := by
  by_cases h : p.Status = s
  · simp [checkStatusEqual_eq_none h, h]
  · simp [checkStatusEqual_eq_some h, h]

theorem CheckNotNil_none_iff {α : Type} {v : Option α} {e : GoError} :
    CheckNotNil v e = none ↔ v.isSome = true := by
  cases v <;> simp [CheckNotNil]

theorem CheckNil_none_iff {α : Type} {v : Option α} {e : GoError} :
    CheckNil v e = none ↔ v = none := by
  cases v <;> simp [CheckNil]

theorem CheckNotNullOrWhiteSpace_none_iff {s : String} {e : GoError} :
    CheckNotNullOrWhiteSpace s e = none ↔ goTrimSpace s ≠ "" := by
  by_cases h : goTrimSpace s = "" <;> simp [CheckNotNullOrWhiteSpace, h]

theorem errorsJoin2_none_iff {a b : Option GoError} :
    errorsJoin [a, b] = none ↔ a = none ∧ b = none := by
  cases a <;> cases b <;> simp [errorsJoin]

theorem errorsJoin3_none_iff {a b c : Option GoError} :
    errorsJoin [a, b, c] = none ↔ a = none ∧ b = none ∧ c = none := by
  cases a <;> cases b <;> cases c <;> simp [errorsJoin]

/-! ## Helper lemmas: case analyses of the operations -/

/-- Shape of the payment returned by a successful `NewPayment`. -/
theorem NewPayment_ok {oid : String} {amt : ℚ} {m : Method} {p : Payment}
    (h : NewPayment oid amt m = .ok p) :
    p = { ID := GenerateID, OrderID := oid, Amount := amt, Method := m,
          Status := StatusPending, PaidAt := none, UpdatedAt := none,
          TransactionCode := none } := by
  unfold NewPayment at h
  cases he : errorsJoin
      [CheckNotNullOrWhiteSpace oid ErrInvalidOrderID,
       CheckNotZeroOrNegative amt ErrInvalidPaymentAmount] with
  | none => rw [he] at h; cases h; rfl
  | some e => rw [he] at h; cases h

/-- `ConfirmPayment` either fails leaving the payment untouched, or succeeds
from a pending state with a defined code. -/
theorem ConfirmPayment_cases (p : Payment) (now : Time) :
    ((ConfirmPayment p now).1 = p ∧ (ConfirmPayment p now).2 ≠ none) ∨
    (p.Status = StatusPending ∧ p.TransactionCode.isSome = true ∧
      ConfirmPayment p now =
        ({ p with PaidAt := some now, Status := StatusAuthorized, UpdatedAt := some now }, none)) := by
  unfold ConfirmPayment
  cases he : errorsJoin
      [checkStatusEqual p StatusPending ErrPaymentNotPending,
       CheckNotNil p.TransactionCode ErrTransactionCodeNotDefined] with
  | some e => exact .inl ⟨rfl, by simp⟩
  | none =>
    obtain ⟨h1, h2⟩ := errorsJoin2_none_iff.mp he
    exact .inr ⟨checkStatusEqual_none_iff.mp h1, CheckNotNil_none_iff.mp h2,
      by simp [updateTimestamp, AddDomainEvent]⟩

/-- `RefusePayment` either fails leaving the payment untouched, or succeeds
from a pending state with a defined code. -/
theorem RefusePayment_cases (p : Payment) (now : Time) :
    ((RefusePayment p now).1 = p ∧ (RefusePayment p now).2 ≠ none) ∨
    (p.Status = StatusPending ∧ p.TransactionCode.isSome = true ∧
      RefusePayment p now =
        ({ p with Status := StatusRefused, UpdatedAt := some now }, none)) := by
  unfold RefusePayment
  cases he : errorsJoin
      [checkStatusEqual p StatusPending ErrPaymentNotPending,
       CheckNotNil p.TransactionCode ErrTransactionCodeNotDefined] with
  | some e => exact .inl ⟨rfl, by simp⟩
  | none =>
    obtain ⟨h1, h2⟩ := errorsJoin2_none_iff.mp he
    exact .inr ⟨checkStatusEqual_none_iff.mp h1, CheckNotNil_none_iff.mp h2,
      by simp [updateTimestamp, AddDomainEvent]⟩

/-- `DefineTransactionCode` either fails leaving the payment untouched, or
succeeds from a pending state with a non-blank code and no code yet set. -/
theorem DefineTransactionCode_cases (p : Payment) (code : String) (now : Time) :
    ((DefineTransactionCode p code now).1 = p ∧
     (DefineTransactionCode p code now).2 ≠ none) ∨
    (p.Status = StatusPending ∧ goTrimSpace code ≠ "" ∧ p.TransactionCode = none ∧
      DefineTransactionCode p code now =
        ({ p with TransactionCode := some code, UpdatedAt := some now }, none)) := by
  unfold DefineTransactionCode
  cases he : errorsJoin
      [checkStatusEqual p StatusPending ErrCannotDefineTransactionCodeAfterCompletion,
       CheckNotNullOrWhiteSpace code ErrInvalidTransactionCode,
       CheckNil p.TransactionCode ErrTransactionCodeAlreadyDefined] with
  | some e => exact .inl ⟨rfl, by simp⟩
  | none =>
    obtain ⟨h1, h2, h3⟩ := errorsJoin3_none_iff.mp he
    exact .inr ⟨checkStatusEqual_none_iff.mp h1, CheckNotNullOrWhiteSpace_none_iff.mp h2,
      CheckNil_none_iff.mp h3, by simp [updateTimestamp]⟩

/-- Successful `ConfirmPayment`: pending payment with a defined code. -/
theorem ConfirmPayment_success {p : Payment} (now : Time) {c : String}
    (h1 : p.Status = StatusPending) (h2 : p.TransactionCode = some c) :
    ConfirmPayment p now =
      ({ p with PaidAt := some now, Status := StatusAuthorized, UpdatedAt := some now }, none) := by
  simp [ConfirmPayment, checkStatusEqual_eq_none h1, CheckNotNil, h2, errorsJoin,
    updateTimestamp, AddDomainEvent]

/-- `ConfirmPayment` on a pending payment without a code: only the
transaction-code guard fails. -/
theorem ConfirmPayment_noCode {p : Payment} (now : Time)
    (h1 : p.Status = StatusPending) (h2 : p.TransactionCode = none) :
    ConfirmPayment p now = (p, some (.join [ErrTransactionCodeNotDefined])) := by
  simp [ConfirmPayment, checkStatusEqual_eq_none h1, CheckNotNil, h2, errorsJoin]

/-- `ConfirmPayment` on a non-pending payment with a code: only the status
guard fails. -/
theorem ConfirmPayment_notPending {p : Payment} (now : Time) {c : String}
    (h1 : p.Status ≠ StatusPending) (h2 : p.TransactionCode = some c) :
    ConfirmPayment p now = (p, some (.join [ErrPaymentNotPending])) := by
  simp [ConfirmPayment, checkStatusEqual_eq_some h1, CheckNotNil, h2, errorsJoin]

/-- Successful `RefusePayment`: pending payment with a defined code. -/
theorem RefusePayment_success {p : Payment} (now : Time) {c : String}
    (h1 : p.Status = StatusPending) (h2 : p.TransactionCode = some c) :
    RefusePayment p now =
      ({ p with Status := StatusRefused, UpdatedAt := some now }, none) := by
  simp [RefusePayment, checkStatusEqual_eq_none h1, CheckNotNil, h2, errorsJoin,
    updateTimestamp, AddDomainEvent]

/-- `RefusePayment` on a non-pending payment with a code: only the status
guard fails. -/
theorem RefusePayment_notPending {p : Payment} (now : Time) {c : String}
    (h1 : p.Status ≠ StatusPending) (h2 : p.TransactionCode = some c) :
    RefusePayment p now = (p, some (.join [ErrPaymentNotPending])) := by
  simp [RefusePayment, checkStatusEqual_eq_some h1, CheckNotNil, h2, errorsJoin]

/-- Successful `DefineTransactionCode`: pending, non-blank code, no code yet. -/
theorem DefineTransactionCode_success {p : Payment} {code : String} (now : Time)
    (h1 : p.Status = StatusPending) (h2 : goTrimSpace code ≠ "")
    (h3 : p.TransactionCode = none) :
    DefineTransactionCode p code now =
      ({ p with TransactionCode := some code, UpdatedAt := some now }, none) := by
  simp [DefineTransactionCode, checkStatusEqual_eq_none h1,
    CheckNotNullOrWhiteSpace, h2, CheckNil, h3, errorsJoin, updateTimestamp]

/-- `DefineTransactionCode` on a completed (non-pending) payment fails, and
the returned error matches `ErrCannotDefineTransactionCodeAfterCompletion`. -/
theorem DefineTransactionCode_err_notPending (p : Payment) (code : String) (now : Time)
    (h1 : p.Status ≠ StatusPending) :
    ∃ e, DefineTransactionCode p code now = (p, some e) ∧
      errorsIs e ErrCannotDefineTransactionCodeAfterCompletion = true := by
  by_cases h2 : goTrimSpace code = "" <;> cases h3 : p.TransactionCode
  · exact ⟨.join [ErrCannotDefineTransactionCodeAfterCompletion, ErrInvalidTransactionCode],
      by simp [DefineTransactionCode, checkStatusEqual_eq_some h1,
        CheckNotNullOrWhiteSpace, h2, CheckNil, h3, errorsJoin],
      by simp [errorsIs, errorsIsList, DomainError.Is, errorsAsDomain,
        ErrCannotDefineTransactionCodeAfterCompletion, ErrInvalidTransactionCode, errsNew]⟩
  · exact ⟨.join [ErrCannotDefineTransactionCodeAfterCompletion, ErrInvalidTransactionCode,
        ErrTransactionCodeAlreadyDefined],
      by simp [DefineTransactionCode, checkStatusEqual_eq_some h1,
        CheckNotNullOrWhiteSpace, h2, CheckNil, h3, errorsJoin],
      by simp [errorsIs, errorsIsList, DomainError.Is, errorsAsDomain,
        ErrCannotDefineTransactionCodeAfterCompletion, ErrInvalidTransactionCode,
        ErrTransactionCodeAlreadyDefined, errsNew]⟩
  · exact ⟨.join [ErrCannotDefineTransactionCodeAfterCompletion],
      by simp [DefineTransactionCode, checkStatusEqual_eq_some h1,
        CheckNotNullOrWhiteSpace, h2, CheckNil, h3, errorsJoin],
      by simp [errorsIs, errorsIsList, DomainError.Is, errorsAsDomain,
        ErrCannotDefineTransactionCodeAfterCompletion, errsNew]⟩
  · exact ⟨.join [ErrCannotDefineTransactionCodeAfterCompletion, ErrTransactionCodeAlreadyDefined],
      by simp [DefineTransactionCode, checkStatusEqual_eq_some h1,
        CheckNotNullOrWhiteSpace, h2, CheckNil, h3, errorsJoin],
      by simp [errorsIs, errorsIsList, DomainError.Is, errorsAsDomain,
        ErrCannotDefineTransactionCodeAfterCompletion, ErrTransactionCodeAlreadyDefined, errsNew]⟩

/-- `DefineTransactionCode` when a code is already set fails, and the returned
error matches `ErrTransactionCodeAlreadyDefined`. -/
theorem DefineTransactionCode_err_already (p : Payment) (code : String) (now : Time)
    {c : String} (h3 : p.TransactionCode = some c) :
    ∃ e, DefineTransactionCode p code now = (p, some e) ∧
      errorsIs e ErrTransactionCodeAlreadyDefined = true := by
  by_cases h1 : p.Status = StatusPending <;> by_cases h2 : goTrimSpace code = ""
  · exact ⟨.join [ErrInvalidTransactionCode, ErrTransactionCodeAlreadyDefined],
      by simp [DefineTransactionCode, checkStatusEqual_eq_none h1,
        CheckNotNullOrWhiteSpace, h2, CheckNil, h3, errorsJoin],
      by simp [errorsIs, errorsIsList, DomainError.Is, errorsAsDomain,
        ErrTransactionCodeAlreadyDefined, ErrInvalidTransactionCode, errsNew]⟩
  · exact ⟨.join [ErrTransactionCodeAlreadyDefined],
      by simp [DefineTransactionCode, checkStatusEqual_eq_none h1,
        CheckNotNullOrWhiteSpace, h2, CheckNil, h3, errorsJoin],
      by simp [errorsIs, errorsIsList, DomainError.Is, errorsAsDomain,
        ErrTransactionCodeAlreadyDefined, errsNew]⟩
  · exact ⟨.join [ErrCannotDefineTransactionCodeAfterCompletion, ErrInvalidTransactionCode,
        ErrTransactionCodeAlreadyDefined],
      by simp [DefineTransactionCode, checkStatusEqual_eq_some h1,
        CheckNotNullOrWhiteSpace, h2, CheckNil, h3, errorsJoin],
      by simp [errorsIs, errorsIsList, DomainError.Is, errorsAsDomain,
        ErrTransactionCodeAlreadyDefined, ErrCannotDefineTransactionCodeAfterCompletion,
        ErrInvalidTransactionCode, errsNew]⟩
  · exact ⟨.join [ErrCannotDefineTransactionCodeAfterCompletion, ErrTransactionCodeAlreadyDefined],
      by simp [DefineTransactionCode, checkStatusEqual_eq_some h1,
        CheckNotNullOrWhiteSpace, h2, CheckNil, h3, errorsJoin],
      by simp [errorsIs, errorsIsList, DomainError.Is, errorsAsDomain,
        ErrTransactionCodeAlreadyDefined, ErrCannotDefineTransactionCodeAfterCompletion,
        errsNew]⟩

/-- `NewPayment` on invalid input: fails, and the joined error matches each
violated precondition's sentinel. -/
theorem NewPayment_error (oid : String) (amt : ℚ) (m : Method)
    (h : goTrimSpace oid = "" ∨ amt ≤ 0) :
    ∃ e, NewPayment oid amt m = .error e ∧
      (goTrimSpace oid = "" → errorsIs e ErrInvalidOrderID = true) ∧
      (amt ≤ 0 → errorsIs e ErrInvalidPaymentAmount = true) := by
  by_cases hb : goTrimSpace oid = "" <;> by_cases ha : amt ≤ 0
  · exact ⟨.join [ErrInvalidOrderID, ErrInvalidPaymentAmount],
      by simp [NewPayment, CheckNotNullOrWhiteSpace, hb,
        CheckNotZeroOrNegative, ha, errorsJoin],
      fun _ => by simp [errorsIs, errorsIsList, DomainError.Is, errorsAsDomain,
        ErrInvalidOrderID, ErrInvalidPaymentAmount, errsNew],
      fun _ => by simp [errorsIs, errorsIsList, DomainError.Is, errorsAsDomain,
        ErrInvalidOrderID, ErrInvalidPaymentAmount, errsNew]⟩
  · exact ⟨.join [ErrInvalidOrderID],
      by simp [NewPayment, CheckNotNullOrWhiteSpace, hb,
        CheckNotZeroOrNegative, ha, errorsJoin],
      fun _ => by simp [errorsIs, errorsIsList, DomainError.Is, errorsAsDomain,
        ErrInvalidOrderID, errsNew],
      fun hc => absurd hc ha⟩
  · exact ⟨.join [ErrInvalidPaymentAmount],
      by simp [NewPayment, CheckNotNullOrWhiteSpace, hb,
        CheckNotZeroOrNegative, ha, errorsJoin],
      fun hc => absurd hc hb,
      fun _ => by simp [errorsIs, errorsIsList, DomainError.Is, errorsAsDomain,
        ErrInvalidPaymentAmount, errsNew]⟩
  · rcases h with h | h
    · exact absurd h hb
    · exact absurd h ha

/-- `NewPayment` on valid input succeeds with the documented fresh state. -/
theorem NewPayment_success (oid : String) (amt : ℚ) (m : Method)
    (h1 : goTrimSpace oid ≠ "") (h2 : 0 < amt) :
    NewPayment oid amt m =
      .ok { ID := GenerateID, OrderID := oid, Amount := amt, Method := m,
            Status := StatusPending, PaidAt := none, UpdatedAt := none,
            TransactionCode := none } := by
  have ha : ¬ amt ≤ 0 := not_le.mpr h2
  simp [NewPayment, CheckNotNullOrWhiteSpace, h1, CheckNotZeroOrNegative, ha, errorsJoin]

/-- The invariant of C2, proved for every reachable payment state by
induction over the reachability relation. -/
theorem reachable_inv {p : Payment} (hp : Reachable p) :
    p.PaidAt.isSome = true ↔ p.Status = StatusAuthorized := by
  induction hp with
  | init oid amt m p h =>
    rw [NewPayment_ok h]
    simp [StatusPending, StatusAuthorized]
  | step p q hr hs ih =>
    cases hs with
    | defineCode code now =>
      rcases DefineTransactionCode_cases p code now with ⟨hf, _⟩ | ⟨h1, h2, h3, heq⟩
      · rw [hf]; exact ih
      · rw [heq]; simpa using ih
    | confirm now =>
      rcases ConfirmPayment_cases p now with ⟨hf, _⟩ | ⟨h1, h2, heq⟩
      · rw [hf]; exact ih
      · rw [heq]; simp
    | refuse now =>
      rcases RefusePayment_cases p now with ⟨hf, _⟩ | ⟨h1, h2, heq⟩
      · rw [hf]; exact ih
      · rw [heq]
        simp only []
        constructor
        · intro hsome
          exact absurd (h1.symm.trans (ih.mp hsome)) (by decide)
        · intro hcon
          exact absurd hcon (by simp [StatusRefused, StatusAuthorized])

/-! ## Claims -/

/-- C1: in the run `Create("order-123", 100.0, CreditCard)` →
`DefineTransactionCode("TXN-123")` → `ConfirmPayment()`, every step succeeds
and the payment ends `Authorized` with `PaidAt` set; but the Approved event
record constructed by `ConfirmPayment` is the zero value `ApprovedEvent{}`:
its `Amount` is `0`, not `100.0`, its `TransactionCode` is absent, not
`"TXN-123"`, and its `PaymentID`/`OrderID`/`OccurredAt` are likewise zero;
`AddDomainEvent` then discards it.  This refutes the claim that the event
captures the payment's data — the source's own TODO comments acknowledge the
event is incomplete and untested. -/
theorem scenario_confirm_event_is_zero_value :
    NewPayment "order-123" 100 MethodCreditCard = .ok samplePending ∧
    DefineTransactionCode samplePending "TXN-123" 1 = (sampleWithCode, none) ∧
    ConfirmPayment sampleWithCode 2 = (sampleAuthorized, none) ∧
    sampleAuthorized.Status = StatusAuthorized ∧
    sampleAuthorized.PaidAt = some 2 ∧
    confirmPaymentApprovedEvent sampleAuthorized = ApprovedEvent.goZero ∧
    (confirmPaymentApprovedEvent sampleAuthorized).Amount = 0 ∧
    (confirmPaymentApprovedEvent sampleAuthorized).TransactionCode = none ∧
    (confirmPaymentApprovedEvent sampleAuthorized).PaymentID = "" ∧
    (confirmPaymentApprovedEvent sampleAuthorized).OrderID = "" ∧
    AddDomainEvent sampleAuthorized
      (.approved (confirmPaymentApprovedEvent sampleAuthorized)) = sampleAuthorized :=
  ⟨rfl, rfl, rfl, rfl, rfl, rfl, rfl, rfl, rfl, rfl, rfl⟩

/-- C2: in every payment state reachable from a successful `NewPayment` by
any sequence of `DefineTransactionCode`/`ConfirmPayment`/`RefusePayment`
calls (successful or failing), `PaidAt` is present iff `Status` is
`Authorized`; in particular a successful `RefusePayment` leaves `PaidAt`
absent. -/
theorem reachable_paidAt_iff_authorized (p : Payment) (hp : Reachable p) :
    (p.PaidAt.isSome = true ↔ p.Status = StatusAuthorized) ∧
    (∀ now, (RefusePayment p now).2 = none → ((RefusePayment p now).1).PaidAt = none) := by
  refine ⟨reachable_inv hp, ?_⟩
  intro now h2
  rcases RefusePayment_cases p now with ⟨_, hne⟩ | ⟨h1, hc, heq⟩
  · exact absurd h2 hne
  · rw [heq]
    simp only []
    have hns : ¬ p.PaidAt.isSome = true := fun hsome =>
      absurd (h1.symm.trans ((reachable_inv hp).mp hsome)) (by decide)
    exact Option.not_isSome_iff_eq_none.mp hns

/-- Witness for C2 at the concrete reachable payment `samplePending`. -/
theorem reachable_paidAt_iff_authorized_witness :
    samplePending.PaidAt.isSome = true ↔ samplePending.Status = StatusAuthorized :=
  (reachable_paidAt_iff_authorized samplePending
    (Reachable.init "order-123" 100 MethodCreditCard samplePending rfl)).1

/-- C3: `Status` starts at `Pending` after a successful `NewPayment`; every
operation step either leaves `Status` unchanged or moves it from `Pending` to
exactly one of `Authorized`/`Refused`; once `Status` is `Authorized` or
`Refused` no operation changes it again, and any `DefineTransactionCode` call
in such a terminal state fails with an error matching
`PAYMENT.TRANSACTION_CODE_AFTER_COMPLETION`. -/
theorem status_set_at_most_once :
    (∀ (oid : String) (amt : ℚ) (m : Method) (p : Payment),
        NewPayment oid amt m = .ok p → p.Status = StatusPending) ∧
    (∀ p q : Payment, Step p q → q.Status = p.Status ∨
      (p.Status = StatusPending ∧
        (q.Status = StatusAuthorized ∨ q.Status = StatusRefused))) ∧
    (∀ p : Payment, p.Status = StatusAuthorized ∨ p.Status = StatusRefused →
      (∀ now, ((ConfirmPayment p now).1).Status = p.Status ∧
              ((RefusePayment p now).1).Status = p.Status) ∧
      (∀ code now, ((DefineTransactionCode p code now).1).Status = p.Status ∧
        ∃ e, (DefineTransactionCode p code now).2 = some e ∧
          errorsIs e ErrCannotDefineTransactionCodeAfterCompletion = true)) := by
  refine ⟨?_, ?_, ?_⟩
  · intro oid amt m p h
    rw [NewPayment_ok h]
  · intro p q hs
    cases hs with
    | defineCode code now =>
      rcases DefineTransactionCode_cases p code now with ⟨hf, _⟩ | ⟨h1, h2, h3, heq⟩
      · rw [hf]; exact .inl rfl
      · left; rw [heq]
    | confirm now =>
      rcases ConfirmPayment_cases p now with ⟨hf, _⟩ | ⟨h1, h2, heq⟩
      · rw [hf]; exact .inl rfl
      · right; exact ⟨h1, .inl (by rw [heq])⟩
    | refuse now =>
      rcases RefusePayment_cases p now with ⟨hf, _⟩ | ⟨h1, h2, heq⟩
      · rw [hf]; exact .inl rfl
      · right; exact ⟨h1, .inr (by rw [heq])⟩
  · intro p hterm
    have hne : p.Status ≠ StatusPending := by
      rcases hterm with h | h <;> rw [h] <;> decide
    refine ⟨?_, ?_⟩
    · intro now
      constructor
      · rcases ConfirmPayment_cases p now with ⟨hf, _⟩ | ⟨h1, _, _⟩
        · rw [hf]
        · exact absurd h1 hne
      · rcases RefusePayment_cases p now with ⟨hf, _⟩ | ⟨h1, _, _⟩
        · rw [hf]
        · exact absurd h1 hne
    · intro code now
      obtain ⟨e, heq, hmatch⟩ := DefineTransactionCode_err_notPending p code now hne
      exact ⟨by rw [heq], e, by rw [heq], hmatch⟩

/-- Witness for C3: the terminal-state clause at the concrete authorized
payment `sampleAuthorized`. -/
theorem status_set_at_most_once_witness :
    ((DefineTransactionCode sampleAuthorized "TXN-456" 3).1).Status = sampleAuthorized.Status ∧
    ∃ e, (DefineTransactionCode sampleAuthorized "TXN-456" 3).2 = some e ∧
      errorsIs e ErrCannotDefineTransactionCodeAfterCompletion = true :=
  (status_set_at_most_once.2.2 sampleAuthorized (Or.inl rfl)).2 "TXN-456" 3

/-- C4: whenever `DefineTransactionCode`, `ConfirmPayment` or `RefusePayment`
returns a non-nil error, the whole `Payment` record — hence every one of its
fields (`ID`, `OrderID`, `Amount`, `Method`, `Status`, `PaidAt`, `UpdatedAt`,
`TransactionCode`) — is exactly as before the call.  The operations are total
functions of the embedding, which is how panic-freedom on arbitrary input is
rendered. -/
theorem operations_preserve_state_on_error :
    (∀ (p : Payment) (code : String) (now : Time),
        (DefineTransactionCode p code now).2 ≠ none →
        (DefineTransactionCode p code now).1 = p) ∧
    (∀ (p : Payment) (now : Time),
        (ConfirmPayment p now).2 ≠ none → (ConfirmPayment p now).1 = p) ∧
    (∀ (p : Payment) (now : Time),
        (RefusePayment p now).2 ≠ none → (RefusePayment p now).1 = p) := by
  refine ⟨?_, ?_, ?_⟩
  · intro p code now h
    rcases DefineTransactionCode_cases p code now with ⟨hf, _⟩ | ⟨_, _, _, heq⟩
    · exact hf
    · rw [heq] at h; simp at h
  · intro p now h
    rcases ConfirmPayment_cases p now with ⟨hf, _⟩ | ⟨_, _, heq⟩
    · exact hf
    · rw [heq] at h; simp at h
  · intro p now h
    rcases RefusePayment_cases p now with ⟨hf, _⟩ | ⟨_, _, heq⟩
    · exact hf
    · rw [heq] at h; simp at h

/-- Witness for C4: a failing `ConfirmPayment` (no code defined) leaves the
concrete payment `samplePending` untouched. -/
theorem operations_preserve_state_on_error_witness :
    (ConfirmPayment samplePending 5).1 = samplePending :=
  operations_preserve_state_on_error.2.1 samplePending 5
    (by rw [ConfirmPayment_noCode 5 rfl rfl]; simp)

/-- C5: a `TransactionCode`, once present, never changes: no operation step
alters it, and any further `DefineTransactionCode` call fails with an error
matching `PAYMENT.TRANSACTION_CODE_ALREADY_DEFINED` while the code keeps its
previous value. -/
theorem transactionCode_immutable :
    (∀ p q : Payment, Step p q → p.TransactionCode.isSome = true →
        q.TransactionCode = p.TransactionCode) ∧
    (∀ (p : Payment) (code2 : String) (now : Time) (c : String),
        p.TransactionCode = some c →
        ((DefineTransactionCode p code2 now).1).TransactionCode = some c ∧
        ∃ e, (DefineTransactionCode p code2 now).2 = some e ∧
          errorsIs e ErrTransactionCodeAlreadyDefined = true) := by
  constructor
  · intro p q hs hsome
    cases hs with
    | defineCode code now =>
      rcases DefineTransactionCode_cases p code now with ⟨hf, _⟩ | ⟨_, _, h3, _⟩
      · rw [hf]
      · rw [h3] at hsome; simp at hsome
    | confirm now =>
      rcases ConfirmPayment_cases p now with ⟨hf, _⟩ | ⟨_, _, heq⟩
      · rw [hf]
      · rw [heq]
    | refuse now =>
      rcases RefusePayment_cases p now with ⟨hf, _⟩ | ⟨_, _, heq⟩
      · rw [hf]
      · rw [heq]
  · intro p code2 now c hc
    obtain ⟨e, heq, hmatch⟩ := DefineTransactionCode_err_already p code2 now hc
    exact ⟨by rw [heq]; exact hc, e, by rw [heq], hmatch⟩

/-- Witness for C5: after the code `"TXN-123"` is set, defining `"TXN-456"`
fails with `ALREADY_DEFINED` and the code remains `"TXN-123"`. -/
theorem transactionCode_immutable_witness :
    ((DefineTransactionCode sampleWithCode "TXN-456" 3).1).TransactionCode = some "TXN-123" ∧
    ∃ e, (DefineTransactionCode sampleWithCode "TXN-456" 3).2 = some e ∧
      errorsIs e ErrTransactionCodeAlreadyDefined = true :=
  transactionCode_immutable.2 sampleWithCode "TXN-456" 3 "TXN-123" rfl

/-- C6: on a pending payment without a transaction code, `ConfirmPayment`
fails matching `PAYMENT.TRANSACTION_CODE_NOT_DEFINED` and the status stays
`Pending`; on a pending payment with a code, the first `ConfirmPayment`
succeeds (`Authorized`, `PaidAt` and `UpdatedAt` set) and a second
`ConfirmPayment` fails matching `PAYMENT.NOT_PENDING`. -/
theorem confirmPayment_guard_errors :
    (∀ (p : Payment) (now : Time), p.Status = StatusPending → p.TransactionCode = none →
      ((ConfirmPayment p now).1 = p ∧
       ((ConfirmPayment p now).1).Status = StatusPending ∧
       ∃ e, (ConfirmPayment p now).2 = some e ∧
         errorsIs e ErrTransactionCodeNotDefined = true)) ∧
    (∀ (p : Payment) (now : Time) (c : String),
      p.Status = StatusPending → p.TransactionCode = some c →
      (ConfirmPayment p now).2 = none ∧
      ((ConfirmPayment p now).1).Status = StatusAuthorized ∧
      ((ConfirmPayment p now).1).PaidAt = some now ∧
      ((ConfirmPayment p now).1).UpdatedAt = some now ∧
      (∀ now2, ∃ e, (ConfirmPayment (ConfirmPayment p now).1 now2).2 = some e ∧
        errorsIs e ErrPaymentNotPending = true)) := by
  constructor
  · intro p now h1 h2
    have heq := ConfirmPayment_noCode now h1 h2
    refine ⟨by rw [heq], by rw [heq]; exact h1, .join [ErrTransactionCodeNotDefined],
      by rw [heq], ?_⟩
    simp [errorsIs, errorsIsList, DomainError.Is, errorsAsDomain,
      ErrTransactionCodeNotDefined, errsNew]
  · intro p now c h1 h2
    have heq := ConfirmPayment_success now h1 h2
    refine ⟨by rw [heq], by rw [heq], by rw [heq], by rw [heq], ?_⟩
    intro now2
    have hq1 : ((ConfirmPayment p now).1).Status ≠ StatusPending := by
      rw [heq]; exact (by decide : StatusAuthorized ≠ StatusPending)
    have hq2 : ((ConfirmPayment p now).1).TransactionCode = some c := by
      rw [heq]; exact h2
    have heq2 := ConfirmPayment_notPending now2 hq1 hq2
    exact ⟨.join [ErrPaymentNotPending], by rw [heq2],
      by simp [errorsIs, errorsIsList, DomainError.Is, errorsAsDomain,
        ErrPaymentNotPending, errsNew]⟩

/-- Witness for C6: the success clause at `sampleWithCode`. -/
theorem confirmPayment_guard_errors_witness :
    (ConfirmPayment sampleWithCode 2).2 = none ∧
    ((ConfirmPayment sampleWithCode 2).1).Status = StatusAuthorized ∧
    ((ConfirmPayment sampleWithCode 2).1).PaidAt = some 2 ∧
    ((ConfirmPayment sampleWithCode 2).1).UpdatedAt = some 2 ∧
    (∀ now2, ∃ e, (ConfirmPayment (ConfirmPayment sampleWithCode 2).1 now2).2 = some e ∧
      errorsIs e ErrPaymentNotPending = true) :=
  confirmPayment_guard_errors.2 sampleWithCode 2 "TXN-123" rfl rfl

/-- C7: `NewPayment` on a blank order ID or a non-positive amount returns no
payment and a single joined error matching each violated precondition's
ErrorKind — both when both inputs are invalid. -/
theorem newPayment_rejects_invalid (oid : String) (amt : ℚ) (m : Method)
    (h : goTrimSpace oid = "" ∨ amt ≤ 0) :
    ∃ e, NewPayment oid amt m = .error e ∧
      (goTrimSpace oid = "" → errorsIs e ErrInvalidOrderID = true) ∧
      (amt ≤ 0 → errorsIs e ErrInvalidPaymentAmount = true) :=
  NewPayment_error oid amt m h

/-- Witness for C7: whitespace order ID and negative amount together; the one
returned error matches both sentinels. -/
theorem newPayment_rejects_invalid_witness :
    ∃ e, NewPayment "   " (-5) MethodPix = .error e ∧
      (goTrimSpace "   " = "" → errorsIs e ErrInvalidOrderID = true) ∧
      ((-5 : ℚ) ≤ 0 → errorsIs e ErrInvalidPaymentAmount = true) :=
  newPayment_rejects_invalid "   " (-5) MethodPix (Or.inl rfl)

/-- C8: `NewPayment` on any non-blank order ID, positive amount and any
method succeeds, and the returned payment is `Pending` with no transaction
code, no `PaidAt`, no `UpdatedAt`, and the given `OrderID`, `Amount` and
`Method`. -/
theorem newPayment_valid_initial_state (oid : String) (amt : ℚ) (m : Method)
    (h1 : goTrimSpace oid ≠ "") (h2 : 0 < amt) :
    ∃ p, NewPayment oid amt m = .ok p ∧
      p.Status = StatusPending ∧ p.TransactionCode = none ∧
      p.PaidAt = none ∧ p.UpdatedAt = none ∧
      p.OrderID = oid ∧ p.Amount = amt ∧ p.Method = m :=
  ⟨_, NewPayment_success oid amt m h1 h2, rfl, rfl, rfl, rfl, rfl, rfl, rfl⟩

/-- Witness for C8 at `("order-123", 100.0, MethodCash)`. -/
theorem newPayment_valid_initial_state_witness :
    ∃ p, NewPayment "order-123" 100 MethodCash = .ok p ∧
      p.Status = StatusPending ∧ p.TransactionCode = none ∧
      p.PaidAt = none ∧ p.UpdatedAt = none ∧
      p.OrderID = "order-123" ∧ p.Amount = 100 ∧ p.Method = MethodCash :=
  newPayment_valid_initial_state "order-123" 100 MethodCash
    (by decide) (by norm_num)

/-- C9: wrapping a sentinel `DomainError` with any cause — and wrapping the
result again — yields a value the original sentinel still matches by code
(`Is`), and `Wrap` returns a copy with the same `Code` and `Message`, leaving
the sentinel itself without a cause. -/
theorem domainError_wrap_preserves_code (c m : String) (cause cause2 : GoError) :
    DomainError.Is (errsNew c m) (DomainError.Wrap (errsNew c m) cause) = true ∧
    DomainError.Is (errsNew c m)
      (DomainError.Wrap (DomainError.Wrap (errsNew c m) cause) cause2) = true ∧
    DomainError.Wrap (errsNew c m) cause = .domain c m (some cause) ∧
    errsNew c m = .domain c m none := by
  refine ⟨?_, ?_, rfl, rfl⟩ <;>
    simp [DomainError.Is, DomainError.Wrap, errsNew, errorsAsDomain]

/-- C10: `NewPayment` performs no validation on the method argument: with
valid order ID and amount it succeeds for every `Method` value — including
the zero value that is none of the six declared methods — and stores it
unchanged. -/
theorem newPayment_ignores_method (oid : String) (amt : ℚ) (m : Method)
    (h1 : goTrimSpace oid ≠ "") (h2 : 0 < amt) :
    ∃ p, NewPayment oid amt m = .ok p ∧ p.Method = m :=
  ⟨_, NewPayment_success oid amt m h1 h2, rfl⟩

/-- Witness for C10 at the zero-value method `Method.mk 0`. -/
theorem newPayment_ignores_method_witness :
    ∃ p, NewPayment "order-123" 100 (Method.mk 0) = .ok p ∧ p.Method = Method.mk 0 :=
  newPayment_ignores_method "order-123" 100 (Method.mk 0) (by decide) (by norm_num)

end SalesDDD
